import Mathlib

/-!
Shallow embedding of the `uniswap-v3-math-ruint` crate (files under `src/`).

Conventions used throughout:
* `u256` values are `Nat`s (callers keep them `< 2^256`); `u128`, `u8` likewise.
* `i256`, `i32`, `i16` values are `Int`s in the two's-complement range of the type.
* ruint/alloy checked arithmetic (which aborts on overflow in the build the
  repository's own test-suite uses) is modelled by the `Panic` error; division
  by zero (which aborts in every build) likewise.  Operations the source spells
  `wrapping_*` / `overflowing_*`, and the always-wrapping shifts, are modelled
  with an explicit `% 2^256`.
* Fallible functions return `Except UniswapV3MathError _`, mirroring the
  `Result<_, UniswapV3MathError>` signatures of the source.
-/

namespace UniV3

/-- Error kind of the crate (`error.rs` is not among the provided sources; the
variants are the ones the `src/` files construct, plus `Panic`, which models a
Rust abort: arithmetic overflow of a checked operation, division by zero, or a
failing conversion). -/
inductive UniswapV3MathError where
  | T                      -- tick out of range
  | R                      -- price out of range
  | ZeroValue
  | SqrtPriceIsZero
  | LiquidityIsZero
  | ProductDivAmount
  | SqrtPriceIsLteQuotient
  | SafeCastToU160Overflow
  | MulDivOverflow
  | DivByZero
  | ProviderError
  | Panic
  deriving DecidableEq, Repr

abbrev M256 : Nat := 2 ^ 256

/-- Bitwise NOT on a 256-bit word (ruint's `Not` implementation). -/
def bitnot256 (x : Nat) : Nat := M256 - 1 - x % M256

/-- Checked `u256` addition: `a + b` panics (debug abort) past `2^256 - 1`. -/
def checked_add (a b : Nat) : Except UniswapV3MathError Nat :=
  if a + b < M256 then .ok (a + b) else .error .Panic

/-- Checked `u256` subtraction: `a - b` panics (debug abort) on underflow. -/
def checked_sub (a b : Nat) : Except UniswapV3MathError Nat :=
  if b ≤ a then .ok (a - b) else .error .Panic

/-- Checked `u32` subtraction (for `1e6 as u32 - fee_pips`). -/
def checked_sub_u32 (a b : Nat) : Except UniswapV3MathError Nat :=
  if b ≤ a then .ok (a - b) else .error .Panic

/-- Reinterpret the 256 bits of an unsigned value as an `I256`
(`utils::u256_to_i256`). -/
def u256_to_i256 (u : Nat) : Int :=
  if u % M256 < 2 ^ 255 then (u % M256 : Int) else (u % M256 : Int) - M256

/-- Reinterpret an `I256` as the unsigned value with the same 256 bits
(`utils::i256_to_u256`, and `into_raw`). -/
def i256_to_u256 (i : Int) : Nat := (i.emod M256).toNat

/-- Wrap an integer into the `i256` two's-complement range. -/
def wrapI256 (x : Int) : Int :=
  if x.emod M256 < 2 ^ 255 then x.emod M256 else x.emod M256 - M256

/-- Wrap an integer into the `i32` two's-complement range (`as i32`, and the
wrapping `i32` arithmetic of release builds; no claim depends on `i32`
overflow behaviour). -/
def wrapI32 (x : Int) : Int :=
  if x.emod (2 ^ 32) < 2 ^ 31 then x.emod (2 ^ 32) else x.emod (2 ^ 32) - 2 ^ 32

/-- Truncate an integer to `i16` (`as i16`). -/
def wrapI16 (x : Int) : Int :=
  if x.emod (2 ^ 16) < 2 ^ 15 then x.emod (2 ^ 16) else x.emod (2 ^ 16) - 2 ^ 16

/-- Bitwise OR on `I256` values, through their two's-complement bits
(alloy `I256::bitor`). -/
def i256_lor (a b : Int) : Int := u256_to_i256 (i256_to_u256 a ||| i256_to_u256 b)

/-! ## `unsafe_math.rs` -/

/-- `unsafe_math::div_rounding_up`.  `a.div_rem(b)` aborts on a zero divisor;
the `quotient + RUINT_ONE` increment is the crate's checked addition. -/
def div_rounding_up (a b : Nat) : Except UniswapV3MathError Nat :=
  if b = 0 then .error .Panic
  else
    let quotient := a / b
    let remainder := a % b
    if remainder = 0 then .ok quotient else checked_add quotient 1

/-! ## `full_math.rs` (not among the provided sources) -/

/-- Modelled from the spec: `full_math.rs` is not under `src/`.  Spec §4.1:
`muldiv(a, b, d)` returns `⌊a·b/d⌋` over a 512-bit intermediate, fails with
`DivideByZero` when `d = 0` and with `Overflow` when the quotient exceeds
`2^256 − 1`. -/
def mul_div (a b d : Nat) : Except UniswapV3MathError Nat :=
  if d = 0 then .error .DivByZero
  else if a * b / d ≥ M256 then .error .MulDivOverflow
  else .ok (a * b / d)

/-- Modelled from the spec: `full_math.rs` is not under `src/`.  Spec §4.1:
`muldiv_up` returns `⌈a·b/d⌉` with the same failure modes as `muldiv`. -/
def mul_div_rounding_up (a b d : Nat) : Except UniswapV3MathError Nat :=
  if d = 0 then .error .DivByZero
  else if (a * b + (d - 1)) / d ≥ M256 then .error .MulDivOverflow
  else .ok ((a * b + (d - 1)) / d)

/-! ## `bit_math.rs` -/

/-- `bit_math::most_significant_bit`. -/
def most_significant_bit (x : Nat) : Except UniswapV3MathError Nat :=
  if x = 0 then .error .ZeroValue
  else
    let (x, r) := if x ≥ 0x100000000000000000000000000000000 then (x >>> 128, 128) else (x, 0)
    let (x, r) := if x ≥ 0x10000000000000000 then (x >>> 64, r + 64) else (x, r)
    let (x, r) := if x ≥ 0x100000000 then (x >>> 32, r + 32) else (x, r)
    let (x, r) := if x ≥ 0x10000 then (x >>> 16, r + 16) else (x, r)
    let (x, r) := if x ≥ 0x100 then (x >>> 8, r + 8) else (x, r)
    let (x, r) := if x ≥ 0x10 then (x >>> 4, r + 4) else (x, r)
    let (x, r) := if x ≥ 0x4 then (x >>> 2, r + 2) else (x, r)
    .ok (if x ≥ 0x2 then r + 1 else r)

/-- `bit_math::least_significant_bit`. -/
def least_significant_bit (x : Nat) : Except UniswapV3MathError Nat :=
  if x = 0 then .error .ZeroValue
  else
    let (x, r) := if x &&& (2 ^ 128 - 1) > 0 then (x, 255 - 128) else (x >>> 128, 255)
    let (x, r) := if x &&& (2 ^ 64 - 1) > 0 then (x, r - 64) else (x >>> 64, r)
    let (x, r) := if x &&& (2 ^ 32 - 1) > 0 then (x, r - 32) else (x >>> 32, r)
    let (x, r) := if x &&& (2 ^ 16 - 1) > 0 then (x, r - 16) else (x >>> 16, r)
    let (x, r) := if x &&& (2 ^ 8 - 1) > 0 then (x, r - 8) else (x >>> 8, r)
    let (x, r) := if x &&& 0xf > 0 then (x, r - 4) else (x >>> 4, r)
    let (x, r) := if x &&& 0x3 > 0 then (x, r - 2) else (x >>> 2, r)
    .ok (if x &&& 0x1 > 0 then r - 1 else r)

/-! ## `tick_bitmap.rs` -/

/-- `tick_bitmap::position`: `((tick >> 8) as i16, (tick % 256) as u8)`.
The arithmetic right shift by 8 of an `i32` is floor division by `2^8`;
`%` is Rust's truncated remainder (`Int.tmod`). -/
def position (tick : Int) : Int × Nat :=
  (wrapI16 (tick / 2 ^ 8), ((tick.tmod 256).emod 256).toNat)

/-- `tick_bitmap::next_initialized_tick_within_one_word` (the name here drops
two letters of `initialized`).  `bit_pos` is a `u8` (callers pass values
`< 256`); `initialized` is the source's `!masked == U256::ZERO`, i.e. the
bitwise NOT of `masked` compared against zero; the `u8` subtractions are
`overflowing_sub`, and the `i32` products wrap. -/
def next_init_tick_within_one_word (bit_pos : Nat) (word : Nat) (tick_spacing : Int)
    (lte : Bool) (compressed : Int) : Except UniswapV3MathError (Int × Bool) :=
  if lte then
    let mask : Nat := (1 <<< bit_pos) - 1 + (1 <<< bit_pos)
    let masked := word &&& mask
    let inited := bitnot256 masked = 0
    if inited then do
      let msb ← most_significant_bit masked
      .ok (wrapI32 ((compressed - ((bit_pos + 256 - msb) % 256 : Nat)) * tick_spacing), inited)
    else
      .ok (wrapI32 ((compressed - (bit_pos : Int)) * tick_spacing), inited)
  else
    let mask : Nat := bitnot256 ((1 <<< bit_pos) - 1)
    let masked := word &&& mask
    let inited := bitnot256 masked = 0
    if inited then do
      let lsb ← least_significant_bit masked
      .ok (wrapI32 ((compressed + 1 + ((lsb + 256 - bit_pos) % 256 : Nat)) * tick_spacing), inited)
    else
      .ok (wrapI32 ((compressed + 1 + ((0xFF - bit_pos : Nat) : Int)) * tick_spacing), inited)

/-! ## `tick_math.rs` -/

def MIN_TICK : Int := -887272
def MAX_TICK : Int := 887272

def MIN_SQRT_RATIO : Nat := 4295128739
def MAX_SQRT_RATIO : Nat := 1461446703485210103287273052203988822378723970342

/-- One guarded step of `get_sqrt_ratio_at_tick`: the source's
`if !(abs_tick & mask) == U256::ZERO { ratio = (ratio * c) >> 128 }`.
The guard compares the bitwise NOT of `abs_tick & mask` with zero. -/
def magic_step (abs_tick : Nat) (mask : Nat) (c : Nat) (ratio : Nat) : Nat :=
  if bitnot256 (abs_tick &&& mask) = 0 then (ratio * c) % M256 >>> 128 else ratio

/-- `tick_math::get_sqrt_ratio_at_tick`.  At `tick = i32::MIN`, `tick.abs()`
overflows (and `U256::from` of the negative result fails), which aborts the
program; this is the `Panic` case. -/
def get_sqrt_ratio_at_tick (tick : Int) : Except UniswapV3MathError Nat :=
  if tick = -(2 ^ 31) then .error .Panic
  else
    let abs_tick : Nat := tick.natAbs
    if abs_tick > MAX_TICK.toNat then .error .T
    else
      let ratio : Nat :=
        if abs_tick &&& 0x1 ≠ 0 then 0xfffcb933bd6fad37aa2d162d1a594001
        else 0x100000000000000000000000000000000
      let ratio := magic_step abs_tick 0x2 0xfff97272373d413259a46990580e213a ratio
      let ratio := magic_step abs_tick 0x4 0xfff2e50f5f656932ef12357cf3c7fdcc ratio
      let ratio := magic_step abs_tick 0x8 0xffe5caca7e10e4e61c3624eaa0941cd0 ratio
      let ratio := magic_step abs_tick 0x10 0xffcb9843d60f6159c9db58835c926644 ratio
      let ratio := magic_step abs_tick 0x20 0xff973b41fa98c081472e6896dfb254c0 ratio
      let ratio := magic_step abs_tick 0x40 0xff2ea16466c96a3843ec78b326b52861 ratio
      let ratio := magic_step abs_tick 0x80 0xfe5dee046a99a2a811c461f1969c3053 ratio
      let ratio := magic_step abs_tick 0x100 0xfcbe86c7900a88aedcffc83b479aa3a4 ratio
      let ratio := magic_step abs_tick 0x200 0xf987a7253ac413176f2b074cf7815e54 ratio
      let ratio := magic_step abs_tick 0x400 0xf3392b0822b70005940c7a398e4b70f3 ratio
      let ratio := magic_step abs_tick 0x800 0xe7159475a2c29b7443b29c7fa6e889d9 ratio
      let ratio := magic_step abs_tick 0x1000 0xd097f3bdfd2022b8845ad8f792aa5825 ratio
      let ratio := magic_step abs_tick 0x2000 0xa9f746462d870fdf8a65dc1f90e061e5 ratio
      let ratio := magic_step abs_tick 0x4000 0x70d869a156d2a1b890bb3df62baf32f7 ratio
      let ratio := magic_step abs_tick 0x8000 0x31be135f97d08fd981231505542fcfa6 ratio
      let ratio := magic_step abs_tick 0x10000 0x9aa508b5b7a84e1c677de54f3e99bc9 ratio
      let ratio := magic_step abs_tick 0x20000 0x5d6af8dedb81196699c329225ee604 ratio
      let ratio := magic_step abs_tick 0x40000 0x2216e584f5fa1ea926041bedfe98 ratio
      let ratio := magic_step abs_tick 0x80000 0x48a170391f7dc42444e8fa2 ratio
      let ratio := if 0 < tick then (M256 - 1) / ratio else ratio
      .ok ((ratio >>> 32) + if ratio % 2 ^ 32 = 0 then 0 else 1)

/-- One iteration of the fixed-point log₂ loop of `get_tick_at_sqrt_ratio`:
`r = (r·r mod 2^256) >> 127`, `f = r >> 128`, `log_2 |= I256(f << i)`,
`r >>= f`. -/
def log_step (st : Nat × Int) (i : Nat) : Nat × Int :=
  let r := (st.1 * st.1) % M256 >>> 127
  let f := r >>> 128
  (r >>> f, i256_lor st.2 (u256_to_i256 (f <<< i)))

/-- `tick_math::get_tick_at_sqrt_ratio`.  The `I256` shifts, products and sums
are modelled through `wrapI256` (none of them can leave the `i256` range for
an in-range price); `>> 128` on `I256` is an arithmetic shift, i.e. floor
division; `low_i32` is `wrapI32`. -/
def get_tick_at_sqrt_ratio (sqrt_price_x_96 : Nat) : Except UniswapV3MathError Int :=
  if ¬ (sqrt_price_x_96 ≥ MIN_SQRT_RATIO ∧ sqrt_price_x_96 < MAX_SQRT_RATIO) then .error .R
  else
    let ratio := (sqrt_price_x_96 <<< 32) % M256
    let r := ratio
    let f : Nat := if r > 0xFFFFFFFFFFFFFFFFFFFFFFFFFFFFFFFF then 128 else 0
    let msb := f
    let r := r >>> f
    let f : Nat := if r > 0xFFFFFFFFFFFFFFFF then 64 else 0
    let msb := msb ||| f
    let r := r >>> f
    let f : Nat := if r > 0xFFFFFFFF then 32 else 0
    let msb := msb ||| f
    let r := r >>> f
    let f : Nat := if r > 0xFFFF then 16 else 0
    let msb := msb ||| f
    let r := r >>> f
    let f : Nat := if r > 0xFF then 8 else 0
    let msb := msb ||| f
    let r := r >>> f
    let f : Nat := if r > 0xF then 4 else 0
    let msb := msb ||| f
    let r := r >>> f
    let f : Nat := if r > 0x3 then 2 else 0
    let msb := msb ||| f
    let r := r >>> f
    let f : Nat := if r > 0x1 then 1 else 0
    let msb := msb ||| f
    let r := if msb ≥ 128 then ratio >>> (msb - 127) else (ratio <<< (127 - msb)) % M256
    let log_2 : Int := wrapI256 (((msb : Int) - 128) * 2 ^ 64)
    let st := [63, 62, 61, 60, 59, 58, 57, 56, 55, 54, 53, 52, 51].foldl log_step (r, log_2)
    let r := (st.1 * st.1) % M256 >>> 127
    let f := r >>> 128
    let log_2 := i256_lor st.2 (u256_to_i256 (f <<< 50))
    let log_sqrt10001 := wrapI256 (log_2 * 255738958999603826347141)
    let tick_low := wrapI32 (wrapI256 (log_sqrt10001 - 3402992956809132418596140100660247210) / 2 ^ 128)
    let tick_high := wrapI32 (wrapI256 (log_sqrt10001 + 291339464771989622907027621153398088495) / 2 ^ 128)
    if tick_low = tick_high then .ok tick_low
    else do
      let s ← get_sqrt_ratio_at_tick tick_high
      .ok (if s ≤ sqrt_price_x_96 then tick_high else tick_low)

/-- `tick_math::calculate_compressed` (`/` and `%` are Rust's truncating
division and remainder). -/
def calculate_compressed (tick : Int) (tick_spacing : Int) : Int :=
  if tick < 0 ∧ tick.tmod tick_spacing ≠ 0 then tick.tdiv tick_spacing - 1
  else tick.tdiv tick_spacing

/-! ## `sqrt_price_math.rs` -/

def MAX_U160 : Nat := 2 ^ 160 - 1
def Q96 : Nat := 2 ^ 96

/-- `sqrt_price_math::get_next_sqrt_price_from_amount_0_rounding_up`.
`product` is `amount.wrapping_mul(sqrt_price_x_96)`; the guard is
`product.wrapping_div(amount) == sqrt_price_x_96` (with `amount ≠ 0` here)
together with `denominator >= numerator_1` for the wrapping sum; the fallback
divisor is `numerator_1.wrapping_div(sqrt_price_x_96).wrapping_add(amount)`
(the fallback is unreachable with `sqrt_price_x_96 = 0`). -/
def get_next_sqrt_price_from_amount_0_rounding_up (sqrt_price_x_96 : Nat)
    (liquidity : Nat) (amount : Nat) (add : Bool) : Except UniswapV3MathError Nat :=
  if amount = 0 then .ok sqrt_price_x_96
  else
    let numerator_1 := (liquidity <<< 96) % M256
    if add then
      let product := (amount * sqrt_price_x_96) % M256
      let denominator := (numerator_1 + product) % M256
      if product / amount = sqrt_price_x_96 ∧ denominator ≥ numerator_1 then
        mul_div_rounding_up numerator_1 sqrt_price_x_96 denominator
      else
        div_rounding_up numerator_1 ((numerator_1 / sqrt_price_x_96 + amount) % M256)
    else
      let product := (amount * sqrt_price_x_96) % M256
      if product / amount = sqrt_price_x_96 ∧ numerator_1 > product then
        mul_div_rounding_up numerator_1 sqrt_price_x_96 (numerator_1 - product)
      else
        .error .ProductDivAmount

/-- `sqrt_price_math::get_next_sqrt_price_from_amount_1_rounding_down`.
`(amount << 96) / liquidity` and the `+` are checked (abort on a zero
`liquidity` resp. overflow); the final subtraction is `overflowing_sub`,
guarded by `sqrt_price_x_96 > quotient`. -/
def get_next_sqrt_price_from_amount_1_rounding_down (sqrt_price_x_96 : Nat)
    (liquidity : Nat) (amount : Nat) (add : Bool) : Except UniswapV3MathError Nat :=
  if add then do
    let quotient ←
      if amount ≤ MAX_U160 then
        if liquidity = 0 then .error .Panic
        else .ok (((amount <<< 96) % M256) / liquidity)
      else mul_div amount Q96 liquidity
    let next_sqrt_price ← checked_add sqrt_price_x_96 quotient
    if next_sqrt_price > MAX_U160 then .error .SafeCastToU160Overflow
    else .ok next_sqrt_price
  else do
    let quotient ←
      if amount ≤ MAX_U160 then div_rounding_up ((amount <<< 96) % M256) liquidity
      else mul_div_rounding_up amount Q96 liquidity
    if sqrt_price_x_96 ≤ quotient then .error .SqrtPriceIsLteQuotient
    else .ok (sqrt_price_x_96 - quotient)

/-- `sqrt_price_math::get_next_sqrt_price_from_input`. -/
def get_next_sqrt_price_from_input (sqrt_price : Nat) (liquidity : Nat)
    (amount_in : Nat) (zero_for_one : Bool) : Except UniswapV3MathError Nat :=
  if sqrt_price = 0 then .error .SqrtPriceIsZero
  else if liquidity = 0 then .error .LiquidityIsZero
  else if zero_for_one then
    get_next_sqrt_price_from_amount_0_rounding_up sqrt_price liquidity amount_in true
  else
    get_next_sqrt_price_from_amount_1_rounding_down sqrt_price liquidity amount_in true

/-- `sqrt_price_math::get_next_sqrt_price_from_output`. -/
def get_next_sqrt_price_from_output (sqrt_price : Nat) (liquidity : Nat)
    (amount_out : Nat) (zero_for_one : Bool) : Except UniswapV3MathError Nat :=
  if sqrt_price = 0 then .error .SqrtPriceIsZero
  else if liquidity = 0 then .error .LiquidityIsZero
  else if zero_for_one then
    get_next_sqrt_price_from_amount_1_rounding_down sqrt_price liquidity amount_out false
  else
    get_next_sqrt_price_from_amount_0_rounding_up sqrt_price liquidity amount_out false

/-- `sqrt_price_math::_get_amount_0_delta` (the unsigned form; the leading
underscore of the source name is kept). -/
def _get_amount_0_delta (sqrt_ratio_a_x_96 : Nat) (sqrt_ratio_b_x_96 : Nat)
    (liquidity : Nat) (round_up : Bool) : Except UniswapV3MathError Nat :=
  let (pa, pb) :=
    if sqrt_ratio_a_x_96 > sqrt_ratio_b_x_96 then (sqrt_ratio_b_x_96, sqrt_ratio_a_x_96)
    else (sqrt_ratio_a_x_96, sqrt_ratio_b_x_96)
  let numerator_1 := (liquidity <<< 96) % M256
  let numerator_2 := pb - pa
  if pa = 0 then .error .SqrtPriceIsZero
  else if round_up then do
    let numerator_partial ← mul_div_rounding_up numerator_1 numerator_2 pb
    div_rounding_up numerator_partial pa
  else do
    let v ← mul_div numerator_1 numerator_2 pb
    .ok (v / pa)

/-- `sqrt_price_math::_get_amount_1_delta` (the unsigned form). -/
def _get_amount_1_delta (sqrt_ratio_a_x_96 : Nat) (sqrt_ratio_b_x_96 : Nat)
    (liquidity : Nat) (round_up : Bool) : Except UniswapV3MathError Nat :=
  let (pa, pb) :=
    if sqrt_ratio_a_x_96 > sqrt_ratio_b_x_96 then (sqrt_ratio_b_x_96, sqrt_ratio_a_x_96)
    else (sqrt_ratio_a_x_96, sqrt_ratio_b_x_96)
  if round_up then mul_div_rounding_up liquidity (pb - pa) 0x1000000000000000000000000
  else mul_div liquidity (pb - pa) 0x1000000000000000000000000

/-! ## `swap_math.rs` -/

/-- `U256::from_limbs(amount_remaining.into_raw().0)`: the unsigned
reinterpretation of the signed remaining amount. -/
def i256_bits (rem : Int) : Nat := i256_to_u256 rem

/-- `U256::from_limbs((-amount_remaining).into_raw().0)`: negate (wrapping at
`i256::MIN`) and reinterpret. -/
def i256_neg_bits (rem : Int) : Nat := i256_to_u256 (-rem)

/-- `swap_math::compute_swap_step`, up to and including the exact-out clamp of
`amount_out` (everything before the final fee computation).  Returns
`(sqrt_ratio_next_x_96, amount_in, amount_out)`. -/
def compute_swap_step_core (sqrt_ratio_current_x_96 sqrt_ratio_target_x_96 : Nat)
    (liquidity : Nat) (amount_remaining : Int) (fee_pips : Nat) :
    Except UniswapV3MathError (Nat × Nat × Nat) := do
  let zero_for_one := decide (sqrt_ratio_current_x_96 ≥ sqrt_ratio_target_x_96)
  let exact_in := decide (amount_remaining ≥ 0)
  let (sqrt_ratio_next_x_96, amount_in, amount_out) ←
    if exact_in then do
      let fee_den ← checked_sub_u32 1000000 fee_pips
      let amount_remaining_less_fee ← mul_div (i256_bits amount_remaining) fee_den 1000000
      let amount_in ←
        if zero_for_one then
          _get_amount_0_delta sqrt_ratio_target_x_96 sqrt_ratio_current_x_96 liquidity true
        else
          _get_amount_1_delta sqrt_ratio_current_x_96 sqrt_ratio_target_x_96 liquidity true
      if amount_remaining_less_fee ≥ amount_in then
        pure (sqrt_ratio_target_x_96, amount_in, 0)
      else do
        let next ← get_next_sqrt_price_from_input sqrt_ratio_current_x_96 liquidity
          amount_remaining_less_fee zero_for_one
        pure (next, amount_in, 0)
    else do
      let amount_out ←
        if zero_for_one then
          _get_amount_1_delta sqrt_ratio_target_x_96 sqrt_ratio_current_x_96 liquidity false
        else
          _get_amount_0_delta sqrt_ratio_current_x_96 sqrt_ratio_target_x_96 liquidity false
      let amount_remaining_neg := i256_neg_bits amount_remaining
      if amount_remaining_neg ≥ amount_out then
        pure (sqrt_ratio_target_x_96, 0, amount_out)
      else do
        let next ← get_next_sqrt_price_from_output sqrt_ratio_current_x_96 liquidity
          amount_remaining_neg zero_for_one
        pure (next, 0, amount_out)
  let max := decide (sqrt_ratio_target_x_96 = sqrt_ratio_next_x_96)
  let (amount_in, amount_out) ←
    if zero_for_one then do
      let amount_in ←
        if !max || !exact_in then
          _get_amount_0_delta sqrt_ratio_next_x_96 sqrt_ratio_current_x_96 liquidity true
        else pure amount_in
      let amount_out ←
        if !max || exact_in then
          _get_amount_1_delta sqrt_ratio_next_x_96 sqrt_ratio_current_x_96 liquidity false
        else pure amount_out
      pure (amount_in, amount_out)
    else do
      let amount_in ←
        if !max || !exact_in then
          _get_amount_1_delta sqrt_ratio_current_x_96 sqrt_ratio_next_x_96 liquidity true
        else pure amount_in
      let amount_out ←
        if !max || exact_in then
          _get_amount_0_delta sqrt_ratio_current_x_96 sqrt_ratio_next_x_96 liquidity false
        else pure amount_out
      pure (amount_in, amount_out)
  let amount_remaining_neg := i256_neg_bits amount_remaining
  let amount_out := if !exact_in && amount_out > amount_remaining_neg
    then amount_remaining_neg else amount_out
  pure (sqrt_ratio_next_x_96, amount_in, amount_out)

/-- `swap_math::compute_swap_step`: the core, then the final fee computation.
In the exact-in full-consumption branch, `fee_amount` is the crate's checked
`U256` subtraction `|amount_remaining| − amount_in`; otherwise it is
`mul_div_rounding_up(amount_in, fee_pips, 1e6 − fee_pips)` with a checked
`u32` subtraction in the denominator. -/
def compute_swap_step (sqrt_ratio_current_x_96 sqrt_ratio_target_x_96 : Nat)
    (liquidity : Nat) (amount_remaining : Int) (fee_pips : Nat) :
    Except UniswapV3MathError (Nat × Nat × Nat × Nat) := do
  let (sqrt_ratio_next_x_96, amount_in, amount_out) ←
    compute_swap_step_core sqrt_ratio_current_x_96 sqrt_ratio_target_x_96 liquidity
      amount_remaining fee_pips
  if amount_remaining ≥ 0 ∧ sqrt_ratio_next_x_96 ≠ sqrt_ratio_target_x_96 then do
    let fee_amount ← checked_sub (i256_bits amount_remaining) amount_in
    pure (sqrt_ratio_next_x_96, amount_in, amount_out, fee_amount)
  else do
    let fee_den ← checked_sub_u32 1000000 fee_pips
    let fee_amount ← mul_div_rounding_up amount_in fee_pips fee_den
    pure (sqrt_ratio_next_x_96, amount_in, amount_out, fee_amount)

/-! ## `lib.rs` — the swap driver

The provider trait is modelled by two functions, `wordAt` (for
`get_word_at_position`) and `liqNetAt` (for `get_liquidity_net_at_tick`).
`simulate_swap_step` is the body of the `while` loop of `Math::simulate_swap`
(lines 85–181): it takes the bitmap word carried across iterations plus the
`CurrentState`, and returns their updated values. -/

/-- `CurrentState` of `lib.rs`. -/
structure CurrentState where
  amount_specified_remaining : Int
  amount_calculated : Int
  sqrt_price_x96 : Nat
  tick : Int
  liquidity : Nat
  word_pos : Int
  deriving DecidableEq, Repr

/-- Checked `i256` subtraction (`current_state.amount_calculated -= …`). -/
def checked_sub_i256 (a b : Int) : Except UniswapV3MathError Int :=
  if -(2 ^ 255) ≤ a - b ∧ a - b < 2 ^ 255 then .ok (a - b) else .error .Panic

/-- The remainder of the loop body after the bitmap-word fetch (`lib.rs`
lines 98–181).  Checked `u128` liquidity updates and the checked `i128`
negation are modelled with `Panic`; `step.tick_next.wrapping_sub(1)` wraps. -/
def simulate_swap_step_rest (zero_for_one : Bool) (fee : Nat) (tick_spacing : Int)
    (sqrt_price_limit_x96 : Nat) (liqNetAt : Int → Except UniswapV3MathError Int)
    (compressed : Int) (bit_pos : Nat) (word : Nat) (s : CurrentState) :
    Except UniswapV3MathError (Nat × CurrentState) := do
  let sqrt_price_start_x96 := s.sqrt_price_x96
  let (tick_next, inited) ←
    next_init_tick_within_one_word bit_pos word tick_spacing zero_for_one compressed
  let tick_next := max MIN_TICK (min tick_next MAX_TICK)
  let sqrt_price_next_x96 ← get_sqrt_ratio_at_tick tick_next
  let swap_target_sqrt_ratio :=
    if zero_for_one then
      if sqrt_price_next_x96 < sqrt_price_limit_x96 then sqrt_price_limit_x96
      else sqrt_price_next_x96
    else
      if sqrt_price_next_x96 > sqrt_price_limit_x96 then sqrt_price_limit_x96
      else sqrt_price_next_x96
  let (sqrt_price, amount_in, amount_out, fee_amount) ←
    compute_swap_step s.sqrt_price_x96 swap_target_sqrt_ratio s.liquidity
      s.amount_specified_remaining fee
  let s := { s with sqrt_price_x96 := sqrt_price }
  let rem' := wrapI256 (s.amount_specified_remaining
    - u256_to_i256 ((amount_in + fee_amount) % M256))
  let s := { s with amount_specified_remaining := rem' }
  let ac ← checked_sub_i256 s.amount_calculated (u256_to_i256 amount_out)
  let s := { s with amount_calculated := ac }
  if s.sqrt_price_x96 = sqrt_price_next_x96 then
    if inited then do
      let liquidity_net ← liqNetAt tick_next
      let liquidity_net ←
        if zero_for_one then
          if liquidity_net = -(2 ^ 127) then .error .Panic else .ok (-liquidity_net)
        else .ok liquidity_net
      let liquidity ←
        if liquidity_net < 0 then
          if (-liquidity_net).toNat ≤ s.liquidity then .ok (s.liquidity - (-liquidity_net).toNat)
          else .error .Panic
        else
          if s.liquidity + liquidity_net.toNat < 2 ^ 128 then
            .ok (s.liquidity + liquidity_net.toNat)
          else .error .Panic
      let tick := if zero_for_one then wrapI32 (tick_next - 1) else tick_next
      pure (word, { s with liquidity := liquidity, tick := tick })
    else
      pure (word, s)
  else if s.sqrt_price_x96 ≠ sqrt_price_start_x96 then do
    let tick ← get_tick_at_sqrt_ratio s.sqrt_price_x96
    pure (word, { s with tick := tick })
  else
    pure (word, s)

/-- One iteration of the `while` loop of `Math::simulate_swap` (`lib.rs`
lines 85–181): recompute the word position, fetch a new bitmap word from the
provider when it changed (lines 90–96), then run the rest of the body. -/
def simulate_swap_step (zero_for_one : Bool) (fee : Nat) (tick_spacing : Int)
    (sqrt_price_limit_x96 : Nat) (wordAt : Int → Except UniswapV3MathError Nat)
    (liqNetAt : Int → Except UniswapV3MathError Int) (word : Nat) (s : CurrentState) :
    Except UniswapV3MathError (Nat × CurrentState) :=
  let compressed := calculate_compressed s.tick tick_spacing
  let word_pos := (position compressed).1
  let bit_pos := (position compressed).2
  if word_pos ≠ s.word_pos then
    (wordAt s.word_pos).bind fun w =>
      simulate_swap_step_rest zero_for_one fee tick_spacing sqrt_price_limit_x96 liqNetAt
        compressed bit_pos w { s with word_pos := word_pos }
  else
    simulate_swap_step_rest zero_for_one fee tick_spacing sqrt_price_limit_x96 liqNetAt
      compressed bit_pos word s

end UniV3

deriving instance DecidableEq for Except

namespace UniV3

/-! ## Claim theorems -/

/-- C1: the magic-constant evaluation never runs.  Each source guard
`!(abs_tick & mask) == U256::ZERO` asks for the bitwise NOT of
`abs_tick & mask` to be zero, i.e. for `abs_tick & mask = 2^256 − 1`, which no
`abs_tick` satisfies, so every multiply-and-shift step for bits `1..19` is
skipped.  At the claim's sample points the function returns `2^96` — the
rounded base ratio — instead of the claimed values
`79426470787362580746886972461`, `4295128739` and
`1461446703485210103287273052203988822378723970342` (which are also what the
repository's own `get_sqrt_ratio_at_tick_values` test expects). -/
theorem sqrt_ratio_at_tick_skips_magic_steps :
    get_sqrt_ratio_at_tick 50 = .ok (2 ^ 96)
      ∧ get_sqrt_ratio_at_tick MIN_TICK = .ok (2 ^ 96)
      ∧ get_sqrt_ratio_at_tick MAX_TICK = .ok (2 ^ 96)
      ∧ (2 ^ 96 : Nat) ≠ 79426470787362580746886972461
      ∧ (2 ^ 96 : Nat) ≠ 4295128739
      ∧ (2 ^ 96 : Nat) ≠ 1461446703485210103287273052203988822378723970342 := by
  exact ⟨by decide, by decide, by decide, by decide, by decide, by decide⟩

/-- C2: `initialized` is the source's `!masked == U256::ZERO`, which holds only
when `masked = 2^256 − 1`, not when `masked ≠ 0`.  On the claim's sample input
(`bit_pos = 128`, `word = 1 <<< 70`, `spacing = 1`, `lte = true`,
`compressed = 128`) the masked word is `2^70 ≠ 0`, yet the function reports
`(0, false)` instead of the claimed `(70, true)`; with `word = 0` it returns
`(0, false)` as claimed. -/
theorem next_init_tick_reports_uninitialized :
    next_init_tick_within_one_word 128 (2 ^ 70) 1 true 128 = .ok (0, false)
      ∧ next_init_tick_within_one_word 128 0 1 true 128 = .ok (0, false)
      ∧ next_init_tick_within_one_word 128 (2 ^ 70) 1 true 128
          ≠ .ok (70, true) := by
  exact ⟨by decide, by decide, by decide⟩

/-- C3: the tick/√price round trip is not the identity.  Because the magic
steps of `get_sqrt_ratio_at_tick` are skipped (see the C1 analysis), tick `2`
is mapped to `2^96` — the price of tick `0` — and `get_tick_at_sqrt_ratio`
takes it back to `0`, not `2`. -/
theorem tick_sqrt_ratio_round_trip_fails :
    Except.bind (get_sqrt_ratio_at_tick 2) get_tick_at_sqrt_ratio = .ok 0
      ∧ (0 : Int) ≠ 2 := by
  refine ⟨?_, by decide⟩
  set_option maxRecDepth 4000 in decide

/-- C4: the intermediate-insufficient-liquidity exact-output token1-side step:
`compute_swap_step(p = 20282409603651670423947251286016, p_target = p·9/10,
L = 1024, amount_remaining = −263000, fee_pips = 3000)` succeeds and returns
exactly `(p_target, 1, 26214, 1)`. -/
theorem compute_swap_step_exact_out_insufficient_liquidity :
    compute_swap_step 20282409603651670423947251286016
        (20282409603651670423947251286016 * 9 / 10) 1024 (-263000) 3000
      = .ok (20282409603651670423947251286016 * 9 / 10, 1, 26214, 1) := by
  decide

theorem except_bind_ok' {α β ε : Type} (a : α) (f : α → Except ε β) :
    (Except.ok a : Except ε α) >>= f = f a := rfl

theorem except_bind_err' {α β ε : Type} (e : ε) (f : α → Except ε β) :
    (Except.error e : Except ε α) >>= f = .error e := rfl

theorem except_pure' {α ε : Type} (a : α) : (pure a : Except ε α) = .ok a := rfl

/-- On a non-zero divisor, `div_rounding_up` is the ceiling; the `+ 1`
increment never overflows because a non-zero remainder forces `b ≥ 2` and
hence a quotient below `2^255`. -/
theorem div_rounding_up_eq (a b : Nat) (hb : b ≠ 0) (ha : a < M256) :
    div_rounding_up a b = .ok ((a + b - 1) / b) := by
  have hb0 : 0 < b := Nat.pos_of_ne_zero hb
  have hdm := Nat.div_add_mod a b
  have hmlt : a % b < b := Nat.mod_lt a hb0
  unfold div_rounding_up
  rw [if_neg hb]
  by_cases hr : a % b = 0
  · rw [if_pos hr]
    have h1 : a + b - 1 = b * (a / b) + (b - 1) := by omega
    rw [h1, Nat.mul_add_div hb0, Nat.div_eq_of_lt (show b - 1 < b by omega),
      Nat.add_zero]
  · rw [if_neg hr]
    have hb2 : 2 ≤ b := by
      rcases Nat.eq_or_lt_of_le hb0 with h | h
      · exfalso; apply hr; rw [← h, Nat.mod_one]
      · exact h
    have hq2 : a / b ≤ a / 2 := Nat.div_le_div_left hb2 (by norm_num)
    have hq3 : a / 2 ≤ (2 ^ 256 - 1) / 2 := Nat.div_le_div_right (by
      have h : a < 2 ^ 256 := ha
      omega)
    have hq : a / b + 1 < M256 := by
      have h255 : (2 ^ 256 - 1) / 2 = 2 ^ 255 - 1 := by norm_num
      show a / b + 1 < 2 ^ 256
      have h2 : (2 ^ 255 : Nat) < 2 ^ 256 := by norm_num
      omega
    rw [checked_add, if_pos hq]
    have hms : b * (a / b + 1) = b * (a / b) + b := by ring
    have h1 : a + b - 1 = b * (a / b + 1) + (a % b - 1) := by omega
    rw [h1, Nat.mul_add_div hb0, Nat.div_eq_of_lt (show a % b - 1 < b by omega),
      Nat.add_zero]

/-- C8: for `b ≠ 0`, `div_rounding_up(a, b)` succeeds and equals
`⌈a/b⌉ = (a + b − 1) / b` — in particular the `+ 1` increment taken on a
non-zero remainder cannot overflow — and on `b = 0` it panics
(`div_rem` aborts on a zero divisor). -/
theorem div_rounding_up_is_ceil (a b : Nat) (ha : a < M256) (hb : 0 < b) :
    div_rounding_up a b = .ok ((a + b - 1) / b)
      ∧ div_rounding_up a 0 = .error .Panic := by
  exact ⟨div_rounding_up_eq a b hb.ne' ha, rfl⟩

/-- Witness for C8 at `a = 7`, `b = 3` (where `⌈7/3⌉ = 3`). -/
theorem div_rounding_up_is_ceil_witness :
    (7 : Nat) < M256 ∧ (0 : Nat) < 3
      ∧ (div_rounding_up 7 3 = .ok ((7 + 3 - 1) / 3)
          ∧ div_rounding_up 7 0 = .error .Panic) :=
  ⟨by decide, by decide, div_rounding_up_is_ceil 7 3 (by decide) (by decide)⟩

/-- C6 counterexample: at `tick = i32::MIN = −2^31` (whose absolute value
exceeds `MAX_TICK`), `get_sqrt_ratio_at_tick` aborts — `i32::abs` overflows
and `U256::from` rejects the negative result — instead of returning the
`TickOutOfRange` error `T` the claim demands. -/
theorem sqrt_ratio_at_tick_i32_min_panics :
    get_sqrt_ratio_at_tick (-(2 ^ 31)) = .error .Panic
      ∧ get_sqrt_ratio_at_tick (-(2 ^ 31)) ≠ .error .T := by
  exact ⟨by decide, by decide⟩

/-- C6 (amended): for every `i32` tick `t` other than `i32::MIN` with
`|t| > MAX_TICK`, `get_sqrt_ratio_at_tick` returns the `TickOutOfRange`
error `T`. -/
theorem sqrt_ratio_at_tick_out_of_range (t : Int) (_hlo : -(2 ^ 31) ≤ t)
    (_hhi : t < 2 ^ 31) (hmin : t ≠ -(2 ^ 31)) (habs : 887272 < t.natAbs) :
    get_sqrt_ratio_at_tick t = .error .T := by
  rw [get_sqrt_ratio_at_tick, if_neg hmin, if_pos]
  exact habs

/-- Witness for C6 (amended) at `t = 887273 = MAX_TICK + 1`. -/
theorem sqrt_ratio_at_tick_out_of_range_witness :
    -(2 ^ 31) ≤ (887273 : Int) ∧ (887273 : Int) < 2 ^ 31
      ∧ (887273 : Int) ≠ -(2 ^ 31) ∧ 887272 < (887273 : Int).natAbs
      ∧ get_sqrt_ratio_at_tick 887273 = .error .T :=
  ⟨by decide, by decide, by decide, by decide,
    sqrt_ratio_at_tick_out_of_range 887273 (by decide) (by decide) (by decide) (by decide)⟩

/-- C10: `position` returns the `i16`-truncated arithmetic shift `t >> 8`
(floor division by `256`) as the word position, and the non-negative residue
`t mod 256` as the bit position — the truncated Rust remainder followed by the
`u8` cast agrees with the mathematical residue — including at the claim's
sample points `position(-1) = (-1, 255)` and `position(-256) = (-1, 0)`. -/
theorem position_word_and_bit :
    (∀ t : Int, -(2 ^ 31) ≤ t → t < 2 ^ 31 →
        (position t).1 = wrapI16 (t / 2 ^ 8) ∧ (position t).2 = (t % 256).toNat)
      ∧ position (-1) = (-1, 255) ∧ position (-256) = (-1, 0) := by
  refine ⟨fun t _ _ => ⟨rfl, ?_⟩, by decide, by decide⟩
  show ((t.tmod 256).emod 256).toNat = (t.emod 256).toNat
  have h : t.tmod 256 = t + 256 * (-t.tdiv 256) := by
    have := Int.tmod_add_tdiv t 256
    omega
  have key : (t.tmod 256).emod 256 = t.emod 256 := by
    rw [h]
    exact Int.add_mul_emod_self_left t 256 (-t.tdiv 256)
  rw [key]

/-- Witness for C10 at `t = -1`. -/
theorem position_word_and_bit_witness :
    -(2 ^ 31) ≤ (-1 : Int) ∧ (-1 : Int) < 2 ^ 31
      ∧ ((position (-1)).1 = wrapI16 ((-1) / 2 ^ 8)
          ∧ (position (-1)).2 = ((-1 : Int) % 256).toNat) :=
  ⟨by decide, by decide, position_word_and_bit.1 (-1) (by decide) (by decide)⟩

/-- C9 counterexample: with `sqrt_price = 1`, `liquidity = 1` and
`amount_in = 2^256 − 2^96`, the fallback divisor
`numerator_1 / sqrt_price + amount` of the token0-input branch wraps to `0`,
and `div_rounding_up`'s `div_rem` aborts on the zero divisor: the call does
not return `Ok`.  (One less than this amount — the repository's
"minimum price for max inputs" test — still succeeds.) -/
theorem next_sqrt_price_from_input_wrap_to_zero_divisor :
    get_next_sqrt_price_from_input 1 1 (2 ^ 256 - 2 ^ 96) true = .error .Panic := by
  decide

/-- C9 (amended): for every `sqrt_price ≠ 0`, `liquidity ≠ 0` and every
`amount_in`, as long as the fallback divisor
`liquidity·2^96 / sqrt_price + amount_in` does not wrap to `0 (mod 2^256)`,
`get_next_sqrt_price_from_input(…, zero_for_one = true)` returns `Ok` with a
result `≥ 1`: the token0-input direction cannot error out or drive the
returned √price to zero, except for the single wrap-to-zero-divisor amount
per `(sqrt_price, liquidity)` pair, where it aborts on a zero divisor. -/
theorem next_sqrt_price_from_input_token0_ok (sp L amount : Nat)
    (hsp0 : 0 < sp) (hsp : sp < M256) (hL0 : 0 < L) (hL : L < 2 ^ 128)
    (ham : amount < M256)
    (hdiv : amount ≠ 0 → (L * 2 ^ 96 / sp + amount) % M256 ≠ 0) :
    ∃ v, get_next_sqrt_price_from_input sp L amount true = .ok v ∧ 1 ≤ v := by
  rw [get_next_sqrt_price_from_input, if_neg hsp0.ne', if_neg hL0.ne', if_pos rfl]
  by_cases h0 : amount = 0
  · subst h0
    rw [get_next_sqrt_price_from_amount_0_rounding_up, if_pos rfl]
    exact ⟨sp, rfl, hsp0⟩
  · have hn1 : (L <<< 96) % M256 = L * 2 ^ 96 := by
      rw [Nat.shiftLeft_eq]
      exact Nat.mod_eq_of_lt (by
        calc L * 2 ^ 96 ≤ (2 ^ 128 - 1) * 2 ^ 96 := Nat.mul_le_mul_right _ (by omega)
          _ < 2 ^ 256 := by norm_num)
    have hn1lt : L * 2 ^ 96 < M256 := by
      calc L * 2 ^ 96 ≤ (2 ^ 128 - 1) * 2 ^ 96 := Nat.mul_le_mul_right _ (by omega)
        _ < 2 ^ 256 := by norm_num
    have hn1pos : 0 < L * 2 ^ 96 := Nat.mul_pos hL0 (by norm_num)
    have ham0 : 0 < amount := Nat.pos_of_ne_zero h0
    have hdiv' := hdiv h0
    rw [get_next_sqrt_price_from_amount_0_rounding_up, if_neg h0, if_pos rfl, hn1]
    dsimp only
    set n1 := L * 2 ^ 96 with hn1def
    have else_ok : ∃ v, div_rounding_up n1 ((n1 / sp + amount) % M256) = .ok v ∧ 1 ≤ v := by
      set d := (n1 / sp + amount) % M256 with hd
      have hdpos : 0 < d := Nat.pos_of_ne_zero hdiv'
      refine ⟨(n1 + d - 1) / d, div_rounding_up_eq n1 d hdiv' hn1lt, ?_⟩
      rw [Nat.le_div_iff_mul_le hdpos]
      omega
    by_cases hov : amount * sp < M256
    · have hprod : (amount * sp) % M256 = amount * sp := Nat.mod_eq_of_lt hov
      rw [hprod]
      have hq : amount * sp / amount = sp := Nat.mul_div_cancel_left sp ham0
      by_cases hden : n1 + amount * sp < M256
      · have hdeneq : (n1 + amount * sp) % M256 = n1 + amount * sp := Nat.mod_eq_of_lt hden
        rw [hdeneq, if_pos ⟨hq, Nat.le_add_right n1 (amount * sp)⟩]
        set d := n1 + amount * sp with hddef
        have hd0 : d ≠ 0 := by positivity
        have hsple : sp ≤ d := by
          have : sp ≤ amount * sp := Nat.le_mul_of_pos_left sp ham0
          omega
        have hqle : (n1 * sp + (d - 1)) / d ≤ n1 := by
          have h1 : n1 * sp + (d - 1) ≤ n1 * d + (d - 1) :=
            Nat.add_le_add_right (Nat.mul_le_mul_left n1 hsple) _
          have h2 : (n1 * d + (d - 1)) / d = n1 + (d - 1) / d := by
            rw [Nat.mul_comm n1 d, Nat.mul_add_div (Nat.pos_of_ne_zero hd0)]
          have h3 : (d - 1) / d = 0 := Nat.div_eq_of_lt (by omega)
          calc (n1 * sp + (d - 1)) / d ≤ (n1 * d + (d - 1)) / d := Nat.div_le_div_right h1
            _ = n1 := by rw [h2, h3, Nat.add_zero]
        have hqlt : ¬ ((n1 * sp + (d - 1)) / d ≥ M256) := by omega
        rw [mul_div_rounding_up, if_neg hd0, if_neg hqlt]
        refine ⟨(n1 * sp + (d - 1)) / d, rfl, ?_⟩
        rw [Nat.le_div_iff_mul_le (Nat.pos_of_ne_zero hd0)]
        have : 1 ≤ n1 * sp := Nat.mul_pos hn1pos hsp0
        omega
      · have hdenlt : (n1 + amount * sp) % M256 < n1 := by
          have hsum : n1 + amount * sp < 2 * M256 := by omega
          have heq : (n1 + amount * sp) % M256 = n1 + amount * sp - M256 := by
            rw [Nat.mod_eq_sub_mod (by omega), Nat.mod_eq_of_lt (by omega)]
          omega
        rw [if_neg (fun hcon => absurd hcon.2 (by omega))]
        exact else_ok
    · have h1 : (amount * sp) % M256 ≤ amount * sp - M256 := by
        rw [Nat.mod_eq_sub_mod (le_of_not_lt hov)]
        exact Nat.mod_le _ _
      have h2 : (amount * sp) % M256 < sp * amount := by
        have hM : 0 < M256 := by norm_num
        have hpos : 0 < amount * sp := Nat.mul_pos ham0 hsp0
        have hcom : sp * amount = amount * sp := Nat.mul_comm sp amount
        omega
      have hqlt : (amount * sp) % M256 / amount < sp :=
        (Nat.div_lt_iff_lt_mul ham0).mpr h2
      rw [if_neg (fun hcon => absurd hcon.1 (Nat.ne_of_lt hqlt))]
      exact else_ok

/-- Witness for C9 (amended): the repository's "input amount of 0.1 token0"
test (`sqrt_price = 2^96`, `L = 10^18`, `amount_in = 10^17`). -/
theorem next_sqrt_price_from_input_token0_ok_witness :
    (0 : Nat) < 79228162514264337593543950336
      ∧ (79228162514264337593543950336 : Nat) < M256
      ∧ (0 : Nat) < 1000000000000000000
      ∧ (1000000000000000000 : Nat) < 2 ^ 128
      ∧ (100000000000000000 : Nat) < M256
      ∧ ((100000000000000000 : Nat) ≠ 0 →
          (1000000000000000000 * 2 ^ 96 / 79228162514264337593543950336
            + 100000000000000000) % M256 ≠ 0)
      ∧ ∃ v, get_next_sqrt_price_from_input 79228162514264337593543950336
            1000000000000000000 100000000000000000 true = .ok v ∧ 1 ≤ v :=
  ⟨by decide, by decide, by decide, by decide, by decide, by decide,
    next_sqrt_price_from_input_token0_ok 79228162514264337593543950336
      1000000000000000000 100000000000000000 (by decide) (by decide) (by decide)
      (by decide) (by decide) (by decide)⟩

/-- C5 counterexample (a test vector of the repository's own
`test_compute_swap_step`): in the exact-output case with
`amount_remaining = −1`, the step succeeds with a price different from the
target yet `amount_in + fee_amount = 2 > 1 = |amount_remaining|`; the claimed
inequality `amount_in + fee_amount ≤ |amount_remaining|` fails. -/
theorem swap_step_fee_bound_fails_exact_out :
    compute_swap_step 417332158212080721273783715441582 1452870262520218020823638996
        159344665391607089467575320103 (-1) 1
      = .ok (417332158212080721273783715441581, 1, 1, 1)
      ∧ (417332158212080721273783715441581 : Nat) ≠ 1452870262520218020823638996
      ∧ ¬ ((1 : Nat) + 1 ≤ Int.toNat |(-1 : Int)|) := by
  exact ⟨by decide, by decide, by decide⟩

/-- C5 (amended): restricted to the exact-in case.  Whenever
`compute_swap_step` succeeds with a returned price different from
`sqrt_ratio_target` and `amount_remaining ≥ 0`, the returned amounts satisfy
`amount_in ≤ |amount_remaining|` and
`amount_in + fee_amount = |amount_remaining|` (the branch computes
`fee_amount` as `|amount_remaining| − amount_in`; in every other branch the
fee is `muldiv_up(amount_in, fee_pips, 10^6 − fee_pips)`).  In the exact-out
case no such bound holds (see the counterexample). -/
theorem swap_step_exact_in_full_consumption (p pt L : Nat) (rem : Int) (fee : Nat)
    (pn ain aout famt : Nat)
    (hrem0 : 0 ≤ rem) (hrem1 : rem < 2 ^ 255)
    (h : compute_swap_step p pt L rem fee = .ok (pn, ain, aout, famt))
    (hne : pn ≠ pt) :
    ain ≤ rem.toNat ∧ ain + famt = rem.toNat := by
  have hlt : rem < ((M256 : Nat) : Int) := by
    have h2 : ((M256 : Nat) : Int) = 2 ^ 256 := by norm_num [M256]
    rw [h2]
    have h3 : (2 ^ 255 : Int) < 2 ^ 256 := by norm_num
    omega
  have hbits : i256_bits rem = rem.toNat := by
    unfold i256_bits i256_to_u256
    have h1 : rem.emod ((M256 : Nat) : Int) = rem := Int.emod_eq_of_lt hrem0 hlt
    rw [h1]
  unfold compute_swap_step at h
  cases hcore : compute_swap_step_core p pt L rem fee with
  | error e =>
    rw [hcore] at h
    rw [except_bind_err'] at h
    exact absurd h (by simp)
  | ok x =>
    obtain ⟨n, ai, ao⟩ := x
    rw [hcore] at h
    rw [except_bind_ok'] at h
    simp only at h
    split at h
    case isTrue hc =>
      cases hsub : checked_sub (i256_bits rem) ai with
      | error e =>
        rw [hsub, except_bind_err'] at h
        exact absurd h (by simp)
      | ok fa =>
        rw [hsub, except_bind_ok', except_pure'] at h
        simp only [Except.ok.injEq, Prod.mk.injEq] at h
        obtain ⟨rfl, rfl, rfl, rfl⟩ := h
        unfold checked_sub at hsub
        split at hsub
        case isTrue hle =>
          simp only [Except.ok.injEq] at hsub
          rw [hbits] at hle hsub
          omega
        case isFalse hle =>
          exact absurd hsub (by simp)
    case isFalse hc =>
      have hn : n = pt := by
        by_contra hnn
        exact hc ⟨hrem0, hnn⟩
      cases hfd : checked_sub_u32 1000000 fee with
      | error e =>
        rw [hfd, except_bind_err'] at h
        exact absurd h (by simp)
      | ok fd =>
        rw [hfd, except_bind_ok'] at h
        cases hfa : mul_div_rounding_up ai fee fd with
        | error e =>
          rw [hfa, except_bind_err'] at h
          exact absurd h (by simp)
        | ok fa =>
          rw [hfa, except_bind_ok', except_pure'] at h
          simp only [Except.ok.injEq, Prod.mk.injEq] at h
          exact absurd (h.1.symm.trans hn) hne

set_option maxRecDepth 8000 in
/-- Witness for C5 (amended): the repository's "exact amount in that is fully
spent in one for zero" test vector, where
`999400000000000000 + 600000000000000 = 10^18`. -/
theorem swap_step_exact_in_full_consumption_witness :
    (0 : Int) ≤ 1000000000000000000 ∧ (1000000000000000000 : Int) < 2 ^ 255
      ∧ compute_swap_step 79228162514264337593543950336 0xe6666666666666666666666666
          2000000000000000000 1000000000000000000 600
        = .ok (118818475322642227089037862318, 999400000000000000,
            666399946655997866, 600000000000000)
      ∧ (118818475322642227089037862318 : Nat) ≠ 0xe6666666666666666666666666
      ∧ (999400000000000000 ≤ Int.toNat 1000000000000000000
          ∧ 999400000000000000 + 600000000000000 = Int.toNat 1000000000000000000) :=
  ⟨by decide, by decide, by decide, by decide,
    swap_step_exact_in_full_consumption 79228162514264337593543950336
      0xe6666666666666666666666666 2000000000000000000 1000000000000000000 600
      118818475322642227089037862318 999400000000000000 666399946655997866
      600000000000000 (by decide) (by decide) (by decide) (by decide)⟩

/-- C7: on a loop iteration of `simulate_swap` whose recomputed word position
differs from `state.word_pos`, the driver queries the provider's word lookup
at the OLD `state.word_pos` and only afterwards installs the new position:
the iteration is exactly `wordAt(old word_pos)` bound into the rest of the
body run on the state carrying the NEW word position (first conjunct) — so a
provider failure at the old position aborts the iteration — and the result is
unchanged if the provider's answer at the NEW position is replaced by an
arbitrary value (second conjunct): the new position is never passed to the
provider in that iteration. -/
theorem driver_fetches_word_at_old_position (zero_for_one : Bool) (fee : Nat)
    (tick_spacing : Int) (limit : Nat)
    (wordAt : Int → Except UniswapV3MathError Nat)
    (liqNetAt : Int → Except UniswapV3MathError Int) (word : Nat) (s : CurrentState)
    (h : (position (calculate_compressed s.tick tick_spacing)).1 ≠ s.word_pos) :
    (simulate_swap_step zero_for_one fee tick_spacing limit wordAt liqNetAt word s
        = (wordAt s.word_pos).bind fun w =>
            simulate_swap_step_rest zero_for_one fee tick_spacing limit liqNetAt
              (calculate_compressed s.tick tick_spacing)
              (position (calculate_compressed s.tick tick_spacing)).2 w
              { s with word_pos := (position (calculate_compressed s.tick tick_spacing)).1 })
      ∧ (∀ v, simulate_swap_step zero_for_one fee tick_spacing limit
            (fun p => if p = (position (calculate_compressed s.tick tick_spacing)).1
              then v else wordAt p) liqNetAt word s
          = simulate_swap_step zero_for_one fee tick_spacing limit wordAt liqNetAt word s) := by
  constructor
  · simp only [simulate_swap_step]
    rw [if_pos h]
  · intro v
    simp only [simulate_swap_step]
    rw [if_pos h, if_pos h, if_neg (fun he => h he.symm)]

/-- Witness for C7: a state at tick `256` (word position `1`) whose recorded
`word_pos` is still `0`. -/
theorem driver_fetches_word_at_old_position_witness :
    (position (calculate_compressed (CurrentState.mk 100 0 (2 ^ 96) 256 1024 0).tick 1)).1
        ≠ (CurrentState.mk 100 0 (2 ^ 96) 256 1024 0).word_pos
      ∧ ((simulate_swap_step true 3000 1 4295128740 (fun _ => .ok 0) (fun _ => .ok 0) 0
            (CurrentState.mk 100 0 (2 ^ 96) 256 1024 0)
          = ((fun _ : Int => (Except.ok 0 : Except UniswapV3MathError Nat))
              (CurrentState.mk 100 0 (2 ^ 96) 256 1024 0).word_pos).bind fun w =>
              simulate_swap_step_rest true 3000 1 4295128740 (fun _ => .ok 0)
                (calculate_compressed (CurrentState.mk 100 0 (2 ^ 96) 256 1024 0).tick 1)
                (position (calculate_compressed
                  (CurrentState.mk 100 0 (2 ^ 96) 256 1024 0).tick 1)).2 w
                { CurrentState.mk 100 0 (2 ^ 96) 256 1024 0 with
                    word_pos := (position (calculate_compressed
                      (CurrentState.mk 100 0 (2 ^ 96) 256 1024 0).tick 1)).1 })
          ∧ (∀ v, simulate_swap_step true 3000 1 4295128740
                (fun p => if p = (position (calculate_compressed
                    (CurrentState.mk 100 0 (2 ^ 96) 256 1024 0).tick 1)).1
                  then v else (fun _ => .ok 0) p) (fun _ => .ok 0) 0
                (CurrentState.mk 100 0 (2 ^ 96) 256 1024 0)
              = simulate_swap_step true 3000 1 4295128740 (fun _ => .ok 0) (fun _ => .ok 0) 0
                  (CurrentState.mk 100 0 (2 ^ 96) 256 1024 0))) :=
  ⟨by decide,
    driver_fetches_word_at_old_position true 3000 1 4295128740 (fun _ => .ok 0)
      (fun _ => .ok 0) 0 (CurrentState.mk 100 0 (2 ^ 96) 256 1024 0) (by decide)⟩

end UniV3
